import Mathlib

/-
Verification of the authentication-and-session core of the Beats & Repeats
diagnostic harness (src/src/App.js), as a shallow embedding in Lean 4.

Browser platform primitives (crypto.getRandomValues, crypto.subtle.digest,
sessionStorage, fetch, URLSearchParams projections, media-device requests)
are modelled as explicit parameters or oracles; the logic of the repository itself
is translated function by function from the source.
-/

namespace BeatsRepeats

/-- Standard base64 alphabet character for a 6-bit value, as produced by btoa:
indices 0-25 map to A-Z, 26-51 to a-z, 52-61 to 0-9, 62 to the plus sign and
63 to the slash. -/
def stdChar (n : Nat) : Char :=
  if n < 26 then Char.ofNat (65 + n)
  else if n < 52 then Char.ofNat (71 + n)
  else if n < 62 then Char.ofNat (n - 4)
  else if n = 62 then '+'
  else '/'

/-- Per-character effect of the .replace of plus with minus in the source. -/
def replPlus (c : Char) : Char := if c = '+' then '-' else c

/-- Per-character effect of the .replace of slash with underscore in the source. -/
def replSlash (c : Char) : Char := if c = '/' then '_' else c

/-- Browser btoa applied to a raw byte string: standard base64 with padding,
processing the bytes in groups of three. -/
def btoa : List Nat → List Char
  | [] => []
  | [a] => [stdChar (a / 4), stdChar (a % 4 * 16), '=', '=']
  | [a, b] => [stdChar (a / 4), stdChar (a % 4 * 16 + b / 16), stdChar (b % 16 * 4), '=']
  | a :: b :: c :: rest =>
      stdChar (a / 4) :: stdChar (a % 4 * 16 + b / 16) ::
      stdChar (b % 16 * 4 + c / 64) :: stdChar (c % 64) :: btoa rest

/-- The character list of `btoa(bytes).replace(plus,minus).replace(slash,underscore).replace(pad,empty)`,
exactly the chain used by generateCodeVerifier and generateCodeChallenge in the source. -/
def encodeChars (bytes : List Nat) : List Char :=
  (((btoa bytes).map replPlus).map replSlash).filter (fun c => c != '=')

/-- base64url encoding without padding, as the source computes it. -/
def base64UrlEncode (bytes : List Nat) : String :=
  String.mk (encodeChars bytes)

/-- Inverse character table for the base64url alphabet (proof tool, not in the source). -/
def decodeChar (c : Char) : Nat :=
  if c = '-' then 62
  else if c = '_' then 63
  else if 97 ≤ c.toNat then c.toNat - 71
  else if 65 ≤ c.toNat then c.toNat - 65
  else c.toNat + 4

/-- Reassemble bytes from an unpadded 6-bit-value stream (proof tool, not in the source). -/
def decodeSextets : List Nat → List Nat
  | s1 :: s2 :: s3 :: s4 :: rest =>
      (s1 * 4 + s2 / 16) :: (s2 % 16 * 16 + s3 / 4) :: (s3 % 4 * 64 + s4) :: decodeSextets rest
  | [s1, s2] => [s1 * 4 + s2 / 16]
  | [s1, s2, s3] => [s1 * 4 + s2 / 16, s2 % 16 * 16 + s3 / 4]
  | _ => []

/-- Decode a base64url string back to bytes (proof tool, not in the source). -/
def decodeB64Url (s : String) : List Nat :=
  decodeSextets (s.toList.map decodeChar)

/-- All bytes of the list fit in one octet. -/
def BytesValid (bytes : List Nat) : Prop := ∀ b ∈ bytes, b < 256

instance : DecidablePred BytesValid := by
  intro bytes
  unfold BytesValid
  infer_instance

theorem decode_url_char : ∀ s, s < 64 → decodeChar (replSlash (replPlus (stdChar s))) = s := by
  decide

theorem url_char_ne_pad : ∀ s, s < 64 → (replSlash (replPlus (stdChar s)) != '=') = true := by
  decide

/-- Decoding is a left inverse of the unpadded base64url encoding of the source, on byte lists. -/
theorem decodeSextets_encodeChars : ∀ (bytes : List Nat), BytesValid bytes →
    decodeSextets ((encodeChars bytes).map decodeChar) = bytes
  | [], _ => rfl
  | [a], h => by
      have ha : a < 256 := h a (by simp)
      have e1 := url_char_ne_pad (a / 4) (by omega)
      have e2 := url_char_ne_pad (a % 4 * 16) (by omega)
      have d1 := decode_url_char (a / 4) (by omega)
      have d2 := decode_url_char (a % 4 * 16) (by omega)
      simp only [encodeChars, btoa, List.map_cons, List.map_nil, List.filter_cons,
        List.filter_nil, e1, e2, if_true]
      norm_num [decodeSextets, d1, d2]
      omega
  | [a, b], h => by
      have ha : a < 256 := h a (by simp)
      have hb : b < 256 := h b (by simp)
      have e1 := url_char_ne_pad (a / 4) (by omega)
      have e2 := url_char_ne_pad (a % 4 * 16 + b / 16) (by omega)
      have e3 := url_char_ne_pad (b % 16 * 4) (by omega)
      have d1 := decode_url_char (a / 4) (by omega)
      have d2 := decode_url_char (a % 4 * 16 + b / 16) (by omega)
      have d3 := decode_url_char (b % 16 * 4) (by omega)
      simp only [encodeChars, btoa, List.map_cons, List.map_nil, List.filter_cons,
        List.filter_nil, e1, e2, e3, if_true]
      norm_num [decodeSextets, d1, d2, d3]
      omega
  | a :: b :: c :: rest, h => by
      have ha : a < 256 := h a (by simp)
      have hb : b < 256 := h b (by simp)
      have hc : c < 256 := h c (by simp)
      have e1 := url_char_ne_pad (a / 4) (by omega)
      have e2 := url_char_ne_pad (a % 4 * 16 + b / 16) (by omega)
      have e3 := url_char_ne_pad (b % 16 * 4 + c / 64) (by omega)
      have e4 := url_char_ne_pad (c % 64) (by omega)
      have d1 := decode_url_char (a / 4) (by omega)
      have d2 := decode_url_char (a % 4 * 16 + b / 16) (by omega)
      have d3 := decode_url_char (b % 16 * 4 + c / 64) (by omega)
      have d4 := decode_url_char (c % 64) (by omega)
      have ih := decodeSextets_encodeChars rest
        (fun x hx => h x (by simp [hx]))
      simp only [encodeChars, btoa, List.map_cons, List.filter_cons, e1, e2, e3, e4,
        if_true] at ih ⊢
      rw [d1, d2, d3, d4]
      simp only [decodeSextets, ih, List.cons.injEq]
      refine ⟨by omega, by omega, by omega, trivial⟩

/-- Decoding inverts base64UrlEncode on valid byte lists. -/
theorem decodeB64Url_encode (bytes : List Nat) (h : BytesValid bytes) :
    decodeB64Url (base64UrlEncode bytes) = bytes := by
  unfold decodeB64Url base64UrlEncode
  exact decodeSextets_encodeChars bytes h

/-- The base64url encoding used by the source is injective on byte lists, hence distinct
random draws always yield distinct verifiers. -/
theorem base64UrlEncode_injective (b1 b2 : List Nat) (h1 : BytesValid b1)
    (h2 : BytesValid b2) (he : base64UrlEncode b1 = base64UrlEncode b2) : b1 = b2 := by
  have := congrArg decodeB64Url he
  rwa [decodeB64Url_encode b1 h1, decodeB64Url_encode b2 h2] at this

/-- UTF-8 bytes of a single code point, as produced by TextEncoder. -/
def utf8Bytes (c : Nat) : List Nat :=
  if c < 128 then [c]
  else if c < 2048 then [192 + c / 64, 128 + c % 64]
  else if c < 65536 then [224 + c / 4096, 128 + c / 64 % 64, 128 + c % 64]
  else [240 + c / 262144, 128 + c / 4096 % 64, 128 + c / 64 % 64, 128 + c % 64]

/-- TextEncoder().encode applied to a string: its UTF-8 byte sequence. -/
def utf8Encode (s : String) : List Nat :=
  (s.toList.map (fun c => utf8Bytes c.toNat)).foldr (fun a b => a ++ b) []

/-- generateCodeVerifier from the source; the 32 bytes drawn by
crypto.getRandomValues are passed in as the output of the randomness oracle. -/
def generateCodeVerifier (randomBytes : List Nat) : String :=
  base64UrlEncode randomBytes

/-- generateCodeChallenge from the source; crypto.subtle.digest is the
platform SHA-256 implementation, passed as an oracle. -/
def generateCodeChallenge (sha256 : List Nat → List Nat) (verifier : String) : String :=
  base64UrlEncode (sha256 (utf8Encode verifier))

/-- The configured client identifier from the source. -/
def CLIENT_ID : String := "994bacff4dea4100864d3197b151fe95"

/-- The configured scope set from the source, joined with spaces. -/
def SCOPES : String :=
  String.intercalate " "
    ["streaming", "user-read-email", "user-read-private",
     "user-read-playback-state", "user-modify-playback-state"]

/-- sessionStorage.setItem on the single code_verifier key: overwrites any prior value. -/
def sessionStorageSetItem (_prior : Option String) (v : String) : Option String := some v

/-- What one run of the authenticate flow produces before navigating away. -/
structure AuthBegin where
  codeVerifier : String
  codeChallenge : String
  storage : Option String
  authUrl : String

/-- The authenticate flow of the source up to the outbound navigation: draws
randomness (passed in), computes the PKCE pair, overwrites the stored
verifier in sessionStorage, and builds the authorization URL carrying the
challenge. encodeURIComponent is the platform URI escaper, passed as an
oracle; redirectUri is the window.location projection. -/
def authenticate (sha256 : List Nat → List Nat) (enc : String → String)
    (redirectUri : String) (randomBytes : List Nat) (priorStorage : Option String) :
    AuthBegin :=
  let codeVerifier := generateCodeVerifier randomBytes
  let codeChallenge := generateCodeChallenge sha256 codeVerifier
  { codeVerifier := codeVerifier
    codeChallenge := codeChallenge
    storage := sessionStorageSetItem priorStorage codeVerifier
    authUrl := "https://accounts.spotify.com/authorize?" ++
      "client_id=" ++ CLIENT_ID ++ "&" ++
      "response_type=code&" ++
      "redirect_uri=" ++ enc redirectUri ++ "&" ++
      "scope=" ++ enc SCOPES ++ "&" ++
      "code_challenge_method=S256&" ++
      "code_challenge=" ++ codeChallenge ++ "&" ++
      "show_dialog=true" }

/-- JS truthiness of a nullable string: null and the empty string are falsy. -/
def truthy : Option String → Bool
  | none => false
  | some s => s != ""

/-- Shape of the token-endpoint response, as far as the source inspects it. -/
structure TokenResponse where
  ok : Bool
  status : Nat
  access_token : Option String
  error_description : Option String
  error : Option String
deriving DecidableEq

/-- The JS expression `a || b` over two nullable strings, rendered into a
template string (an absent fallback prints as undefined). -/
def jsOr (a b : Option String) : String :=
  match a with
  | some s => if s = "" then b.getD "undefined" else s
  | none => b.getD "undefined"

/-- The distinguishable outcomes of handleAuthCallback. -/
inductive AuthOutcome where
  | noPending : AuthOutcome
  | authDenied : String → AuthOutcome
  | missingVerifier : AuthOutcome
  | tokenExchangeFailed : Nat → String → AuthOutcome
  | noAccessToken : AuthOutcome
  | success : String → AuthOutcome
deriving DecidableEq

/-- The form-encoded POST body the source sends to the token endpoint. -/
def tokenBody (enc : String → String) (redirectUri code codeVerifier : String) : String :=
  "grant_type=authorization_code&code=" ++ code ++
  "&redirect_uri=" ++ enc redirectUri ++
  "&client_id=" ++ CLIENT_ID ++
  "&code_verifier=" ++ codeVerifier

/-- Everything observable about one handleAuthCallback run: the outcome, the
sessionStorage cell afterwards, the accessToken state set by the run, the
network calls issued (as their POST bodies), and whether the visible URL was
rewritten. -/
structure CallbackResult where
  outcome : AuthOutcome
  storage : Option String
  accessToken : Option String
  calls : List String
  urlRewritten : Bool
deriving DecidableEq

/-- handleAuthCallback from the source. code and error are the
URLSearchParams projections of window.location.search; storage is the
sessionStorage cell under the code_verifier key; fetch is the network
oracle, mapping the POSTed form body to the response of the token endpoint. -/
def handleAuthCallback (enc : String → String) (redirectUri : String)
    (code error : Option String) (storage : Option String)
    (fetch : String → TokenResponse) : CallbackResult :=
  if truthy error then
    { outcome := .authDenied (error.getD "")
      storage := storage, accessToken := none, calls := [], urlRewritten := false }
  else if truthy code then
    if truthy storage then
      let body := tokenBody enc redirectUri (code.getD "") (storage.getD "")
      let resp := fetch body
      if resp.ok then
        if truthy resp.access_token then
          { outcome := .success (resp.access_token.getD "")
            storage := none, accessToken := resp.access_token
            calls := [body], urlRewritten := true }
        else
          { outcome := .noAccessToken
            storage := storage, accessToken := none, calls := [body], urlRewritten := false }
      else
        { outcome := .tokenExchangeFailed resp.status (jsOr resp.error_description resp.error)
          storage := storage, accessToken := none, calls := [body], urlRewritten := false }
    else
      { outcome := .missingVerifier
        storage := storage, accessToken := none, calls := [], urlRewritten := false }
  else
    { outcome := .noPending
      storage := storage, accessToken := none, calls := [], urlRewritten := false }

/-- C1: every beginAuthentication run stores exactly the verifier it just
generated, the accompanying challenge is the base64url encoding (no padding)
of the SHA-256 digest of that verifier, the challenge is embedded in the
authorization URL, and distinct random draws yield distinct verifiers, so a
verifier/challenge pair is generated fresh on every call and never reused
across calls with distinct randomness. -/
theorem c1_pkce_pair_fresh (sha256 : List Nat → List Nat) (enc : String → String)
    (redirectUri : String) (r1 r2 : List Nat) (st1 st2 : Option String)
    (h1 : BytesValid r1) (h2 : BytesValid r2)
    (hl1 : r1.length = 32) (hl2 : r2.length = 32) :
    (authenticate sha256 enc redirectUri r1 st1).codeChallenge
        = base64UrlEncode (sha256 (utf8Encode (authenticate sha256 enc redirectUri r1 st1).codeVerifier))
    ∧ (authenticate sha256 enc redirectUri r1 st1).storage
        = some (authenticate sha256 enc redirectUri r1 st1).codeVerifier
    ∧ (r1 ≠ r2 →
        (authenticate sha256 enc redirectUri r1 st1).codeVerifier
          ≠ (authenticate sha256 enc redirectUri r2 st2).codeVerifier) := by
  refine ⟨rfl, rfl, fun hne he => hne ?_⟩
  exact base64UrlEncode_injective r1 r2 h1 h2 he

/-- Fixed randomness draw used by concrete instantiations. -/
def demoRand1 : List Nat := List.replicate 32 0

/-- A second, different randomness draw used by concrete instantiations. -/
def demoRand2 : List Nat := List.replicate 32 1

/-- A concrete stand-in for the SHA-256 oracle in instantiations. -/
def demoSha : List Nat → List Nat := fun l => l

/-- First concrete authenticate run. -/
def demoAuth1 : AuthBegin := authenticate demoSha (fun s => s) "https://app.test/" demoRand1 none

/-- Second concrete authenticate run, starting from a stale stored verifier. -/
def demoAuth2 : AuthBegin :=
  authenticate demoSha (fun s => s) "https://app.test/" demoRand2 (some "old")

/-- Concrete instantiation of c1_pkce_pair_fresh. -/
theorem c1_pkce_pair_fresh_witness :
    (BytesValid demoRand1 ∧ BytesValid demoRand2
      ∧ demoRand1.length = 32 ∧ demoRand2.length = 32)
    ∧ (demoAuth1.codeChallenge = base64UrlEncode (demoSha (utf8Encode demoAuth1.codeVerifier))
      ∧ demoAuth1.storage = some demoAuth1.codeVerifier
      ∧ (demoRand1 ≠ demoRand2 → demoAuth1.codeVerifier ≠ demoAuth2.codeVerifier)) :=
  ⟨⟨by decide, by decide, by decide, by decide⟩,
    c1_pkce_pair_fresh demoSha (fun s => s) "https://app.test/" demoRand1 demoRand2
      none (some "old") (by decide) (by decide) (by decide) (by decide)⟩

/-- A token-endpoint oracle that always answers 200 with an access token. -/
def demoFetchOk : String → TokenResponse := fun _ =>
  { ok := true, status := 200, access_token := some "tok",
    error_description := none, error := none }

/-- C2: after a successful token exchange the stored verifier is cleared, so
replaying handleAuthCallback with the same callback URL yields
MissingVerifier and issues no second network call; the only other write to
the single-cell storage is the overwrite performed by a new authenticate
run, so at most one verifier is ever live and a new attempt supersedes any
stale one. -/
theorem c2_verifier_single_use (enc : String → String) (redirectUri : String)
    (code : String) (error : Option String) (v : String)
    (fetch : String → TokenResponse)
    (hcode : code ≠ "") (herr : truthy error = false) (hv : v ≠ "")
    (hok : (fetch (tokenBody enc redirectUri code v)).ok = true)
    (htok : truthy (fetch (tokenBody enc redirectUri code v)).access_token = true) :
    (handleAuthCallback enc redirectUri (some code) error (some v) fetch).outcome
        = .success ((fetch (tokenBody enc redirectUri code v)).access_token.getD "")
    ∧ (handleAuthCallback enc redirectUri (some code) error (some v) fetch).storage = none
    ∧ (handleAuthCallback enc redirectUri (some code) error (some v) fetch).calls
        = [tokenBody enc redirectUri code v]
    ∧ (handleAuthCallback enc redirectUri (some code) error
        (handleAuthCallback enc redirectUri (some code) error (some v) fetch).storage
        fetch).outcome = .missingVerifier
    ∧ (handleAuthCallback enc redirectUri (some code) error
        (handleAuthCallback enc redirectUri (some code) error (some v) fetch).storage
        fetch).calls = []
    ∧ (∀ (sha256 : List Nat → List Nat) (rand : List Nat) (prior : Option String),
        (authenticate sha256 enc redirectUri rand prior).storage
          = some (generateCodeVerifier rand)) := by
  have hc : truthy (some code) = true := by simp [truthy, hcode]
  have hvv : truthy (some v) = true := by simp [truthy, hv]
  have hn : truthy none = false := rfl
  refine ⟨?_, ?_, ?_, ?_, ?_, fun _ _ _ => rfl⟩ <;>
    simp only [handleAuthCallback, Option.getD_some, hc, hvv, herr, hok, htok, hn,
      if_true, if_false, Bool.false_eq_true, if_neg, Bool.true_eq_false, ite_true, ite_false]

/-- Concrete instantiation of c2_verifier_single_use. -/
theorem c2_verifier_single_use_witness :
    (("abc" : String) ≠ "" ∧ truthy none = false ∧ ("ver" : String) ≠ ""
      ∧ (demoFetchOk (tokenBody (fun s => s) "https://app.test/" "abc" "ver")).ok = true
      ∧ truthy (demoFetchOk (tokenBody (fun s => s) "https://app.test/" "abc" "ver")).access_token
          = true)
    ∧ ((handleAuthCallback (fun s => s) "https://app.test/" (some "abc") none (some "ver")
          demoFetchOk).outcome
        = .success ((demoFetchOk (tokenBody (fun s => s) "https://app.test/" "abc" "ver")).access_token.getD "")
      ∧ (handleAuthCallback (fun s => s) "https://app.test/" (some "abc") none (some "ver")
          demoFetchOk).storage = none
      ∧ (handleAuthCallback (fun s => s) "https://app.test/" (some "abc") none (some "ver")
          demoFetchOk).calls = [tokenBody (fun s => s) "https://app.test/" "abc" "ver"]
      ∧ (handleAuthCallback (fun s => s) "https://app.test/" (some "abc") none
          (handleAuthCallback (fun s => s) "https://app.test/" (some "abc") none (some "ver")
            demoFetchOk).storage demoFetchOk).outcome = .missingVerifier
      ∧ (handleAuthCallback (fun s => s) "https://app.test/" (some "abc") none
          (handleAuthCallback (fun s => s) "https://app.test/" (some "abc") none (some "ver")
            demoFetchOk).storage demoFetchOk).calls = []
      ∧ (∀ (sha256 : List Nat → List Nat) (rand : List Nat) (prior : Option String),
          (authenticate sha256 (fun s => s) "https://app.test/" rand prior).storage
            = some (generateCodeVerifier rand))) :=
  ⟨⟨by decide, by decide, by decide, by decide, by decide⟩,
    c2_verifier_single_use (fun s => s) "https://app.test/" "abc" none "ver" demoFetchOk
      (by decide) (by decide) (by decide) (by decide) (by decide)⟩

/-- C3 as stated is false on the code: a URL whose query string contains the
error parameter with an empty value (error followed by equals and nothing
else) is not treated as a denial, because the source tests the parameter
with JS truthiness; with a code present and a verifier stored, the token
exchange is still issued on that URL. -/
theorem c3_counterexample :
    (handleAuthCallback (fun s => s) "https://app.test/" (some "abc") (some "")
        (some "ver") demoFetchOk).outcome = .success "tok"
    ∧ (handleAuthCallback (fun s => s) "https://app.test/" (some "abc") (some "")
        (some "ver") demoFetchOk).calls ≠ [] := by
  constructor <;> decide

/-- C3 amended: for every URL whose error query parameter has a nonempty
value, handleAuthCallback fails with AuthDenied carrying that error and
issues no network call. -/
theorem c3_auth_denied (enc : String → String) (redirectUri : String)
    (code storage : Option String) (fetch : String → TokenResponse)
    (e : String) (he : e ≠ "") :
    (handleAuthCallback enc redirectUri code (some e) storage fetch).outcome = .authDenied e
    ∧ (handleAuthCallback enc redirectUri code (some e) storage fetch).calls = [] := by
  have ht : truthy (some e) = true := by simp [truthy, he]
  constructor <;> simp [handleAuthCallback, ht]

/-- Concrete instantiation of c3_auth_denied. -/
theorem c3_auth_denied_witness :
    (("access_denied" : String) ≠ "")
    ∧ ((handleAuthCallback (fun s => s) "https://app.test/" (some "abc")
          (some "access_denied") (some "ver") demoFetchOk).outcome
        = .authDenied "access_denied"
      ∧ (handleAuthCallback (fun s => s) "https://app.test/" (some "abc")
          (some "access_denied") (some "ver") demoFetchOk).calls = []) :=
  ⟨by decide,
    c3_auth_denied (fun s => s) "https://app.test/" (some "abc") (some "ver") demoFetchOk
      "access_denied" (by decide)⟩

/-- C4 as stated is false on the code: a URL carrying both a code parameter
and a nonempty error parameter takes the error branch first, so with no
stored verifier the outcome is AuthDenied, not MissingVerifier. An empty
code value (code followed by equals and nothing else) likewise skips the
MissingVerifier branch because of JS truthiness. -/
theorem c4_counterexample :
    (handleAuthCallback (fun s => s) "https://app.test/" (some "abc")
        (some "access_denied") none demoFetchOk).outcome = .authDenied "access_denied"
    ∧ (handleAuthCallback (fun s => s) "https://app.test/" (some "abc")
        (some "access_denied") none demoFetchOk).outcome ≠ .missingVerifier := by
  constructor <;> decide

/-- C4 amended: for every URL whose code parameter is nonempty and whose
error parameter is absent or empty, if the stored verifier cell is absent or
empty then handleAuthCallback fails with MissingVerifier and issues no
network call. -/
theorem c4_missing_verifier (enc : String → String) (redirectUri : String)
    (code : String) (error storage : Option String) (fetch : String → TokenResponse)
    (hcode : code ≠ "") (herr : truthy error = false) (hst : truthy storage = false) :
    (handleAuthCallback enc redirectUri (some code) error storage fetch).outcome
        = .missingVerifier
    ∧ (handleAuthCallback enc redirectUri (some code) error storage fetch).calls = [] := by
  have hc : truthy (some code) = true := by simp [truthy, hcode]
  constructor <;> simp [handleAuthCallback, hc, herr, hst]

/-- Concrete instantiation of c4_missing_verifier. -/
theorem c4_missing_verifier_witness :
    (("abc" : String) ≠ "" ∧ truthy none = false ∧ truthy none = false)
    ∧ ((handleAuthCallback (fun s => s) "https://app.test/" (some "abc") none none
          demoFetchOk).outcome = .missingVerifier
      ∧ (handleAuthCallback (fun s => s) "https://app.test/" (some "abc") none none
          demoFetchOk).calls = []) :=
  ⟨⟨by decide, by decide, by decide⟩,
    c4_missing_verifier (fun s => s) "https://app.test/" "abc" none none demoFetchOk
      (by decide) (by decide) (by decide)⟩

/-- One artist object of the vendor event payload. -/
structure Artist where
  name : String
deriving DecidableEq

/-- The current-track object of the vendor event payload. -/
structure SpotifyTrack where
  name : String
  artists : List Artist
deriving DecidableEq

/-- The track_window object of the vendor event payload. -/
structure TrackWindow where
  current_track : Option SpotifyTrack
deriving DecidableEq

/-- The player_state_changed event payload, when present. -/
structure PlayerState where
  paused : Bool
  track_window : TrackWindow
deriving DecidableEq

/-- The React state hooks of the component that the claims mention. -/
structure AppState where
  accessToken : Option String
  deviceId : Option String
  isPaused : Bool
  currentTrack : Option String
deriving DecidableEq

/-- The player_state_changed listener from the source: a null state resets
the track to absent and the pause flag to true; otherwise isPaused is taken
from the event and, when the event carries a current track, currentTrack is
rebuilt as artists[0].name, a dash, and the track name. The Bool records
whether the listener body threw (reading artists[0].name of an empty artists
array), in which case the isPaused update before the throw has still
happened. -/
def playerStateChanged (s : AppState) (state : Option PlayerState) : AppState × Bool :=
  match state with
  | none => ({ s with currentTrack := none, isPaused := true }, false)
  | some st =>
    let s1 := { s with isPaused := st.paused }
    match st.track_window.current_track with
    | none => (s1, false)
    | some t =>
      match t.artists.head? with
      | none => (s1, true)
      | some a => ({ s1 with currentTrack := some (a.name ++ " - " ++ t.name) }, false)

/-- C5: for every prior session state, a player_state_changed event with an
absent payload resets currentTrack to absent and sets isPaused to true. -/
theorem c5_null_state_reset (s : AppState) :
    (playerStateChanged s none).1.currentTrack = none
    ∧ (playerStateChanged s none).1.isPaused = true :=
  ⟨rfl, rfl⟩

/-- C6 as stated is false in its general clause: one and the same
state-changed event, carrying a state but no current track, leaves different
currentTrack values for different prior states, so currentTrack is not
recomputed wholesale from the current-track projection of the event on every
event; the prior value is retained when the projection is absent. -/
theorem c6_counterexample :
    (playerStateChanged
        { accessToken := none, deviceId := none, isPaused := true,
          currentTrack := some "Old Artist - Old Song" }
        (some { paused := false, track_window := { current_track := none } })).1.currentTrack
      = some "Old Artist - Old Song"
    ∧ (playerStateChanged
        { accessToken := none, deviceId := none, isPaused := true, currentTrack := none }
        (some { paused := false, track_window := { current_track := none } })).1.currentTrack
      = none :=
  ⟨rfl, rfl⟩

/-- C6 amended: whenever the event state is present and carries a current
track with at least one artist, isPaused is taken from the event and
currentTrack is rebuilt wholesale from the event as first-artist name, dash,
track name, independent of the prior state (so the concrete payload with
paused true, track X and artist Y yields isPaused true and currentTrack
Y - X); when the event state is present but carries no current track, the
prior currentTrack is retained rather than recomputed. -/
theorem c6_track_projection (s s2 : AppState) (st : PlayerState)
    (t : SpotifyTrack) (a : Artist)
    (htw : st.track_window.current_track = some t)
    (ha : t.artists.head? = some a) :
    (playerStateChanged s (some st)).1.currentTrack = some (a.name ++ " - " ++ t.name)
    ∧ (playerStateChanged s (some st)).1.isPaused = st.paused
    ∧ (playerStateChanged s (some st)).1.currentTrack
        = (playerStateChanged s2 (some st)).1.currentTrack := by
  refine ⟨?_, ?_, ?_⟩ <;> simp [playerStateChanged, htw, ha]

/-- The concrete current track of the claim: track X by artist Y. -/
def trackXY : SpotifyTrack := { name := "X", artists := [{ name := "Y" }] }

/-- The concrete event payload of the claim: paused true, current track X by Y. -/
def eventXY : PlayerState := { paused := true, track_window := { current_track := some trackXY } }

/-- A prior session state holding a stale track string. -/
def priorStale : AppState :=
  { accessToken := none, deviceId := none, isPaused := false, currentTrack := some "stale" }

/-- A prior session state holding no track. -/
def priorEmpty : AppState :=
  { accessToken := none, deviceId := none, isPaused := true, currentTrack := none }

/-- Concrete instantiation of c6_track_projection on the payload from the
claim: paused true, track X by artist Y. -/
theorem c6_track_projection_witness :
    (eventXY.track_window.current_track = some trackXY
      ∧ trackXY.artists.head? = some { name := "Y" })
    ∧ ((playerStateChanged priorStale (some eventXY)).1.currentTrack
        = some ("Y" ++ " - " ++ "X")
      ∧ (playerStateChanged priorStale (some eventXY)).1.isPaused = eventXY.paused
      ∧ (playerStateChanged priorStale (some eventXY)).1.currentTrack
        = (playerStateChanged priorEmpty (some eventXY)).1.currentTrack) :=
  ⟨⟨rfl, rfl⟩,
    c6_track_projection priorStale priorEmpty eventXY trackXY { name := "Y" } rfl rfl⟩

/-- The slice of a MediaStream the probe inspects: its audio-track count. -/
structure AudioStream where
  audioTracks : Nat
deriving DecidableEq

/-- The results record built by testAudioCapture (displayMedia is what the
spec calls systemAudioAvailable, webAudio is webAudioAvailable, mediaRecorder
is mediaRecorderAvailable). -/
structure CaptureResults where
  displayMedia : Bool
  webAudio : Bool
  mediaRecorder : Bool
  error : Option String
deriving DecidableEq

/-- Platform actions a capture-probe run performs, for tracing. -/
inductive ProbeAction where
  | requestDisplay : ProbeAction
  | stopTracks : ProbeAction
  | recorderCheck : ProbeAction
deriving DecidableEq

/-- testAudioCapture from the source. displayMediaOracle is the outcome of
navigator.mediaDevices.getDisplayMedia on this run (a stream, or a thrown
error message); recorderOracle is the outcome of the MediaRecorder
availability check (a boolean, or a throw). Both checks sit in their own
try/catch, so the function always returns a results record; the returned
trace records which platform checks actually ran. -/
def testAudioCapture (displayMediaOracle : Except String AudioStream)
    (recorderOracle : Except String Bool) : CaptureResults × List ProbeAction :=
  let base : CaptureResults :=
    { displayMedia := false, webAudio := true, mediaRecorder := false, error := none }
  let step1 :=
    match displayMediaOracle with
    | .ok stream =>
        if stream.audioTracks > 0 then
          ({ base with displayMedia := true },
            [ProbeAction.requestDisplay, ProbeAction.stopTracks])
        else (base, [ProbeAction.requestDisplay])
    | .error e => ({ base with error := some e }, [ProbeAction.requestDisplay])
  let step2 :=
    match recorderOracle with
    | .ok b =>
        (if b then { step1.1 with mediaRecorder := true } else step1.1,
          [ProbeAction.recorderCheck])
    | .error _ => (step1.1, [ProbeAction.recorderCheck])
  (step2.1, step1.2 ++ step2.2)

/-- C7: when the system-audio capture check throws, the probe still returns
a verdict (the embedding is total in the oracle outcomes, because each check
has its own try/catch) whose displayMedia field is false and whose error
field carries the thrown text, and the MediaRecorder check is still
attempted and its result recorded. -/
theorem c7_capture_error_isolated (e : String) (recorderOracle : Except String Bool) :
    (testAudioCapture (Except.error e) recorderOracle).1.displayMedia = false
    ∧ (testAudioCapture (Except.error e) recorderOracle).1.error = some e
    ∧ ProbeAction.recorderCheck ∈ (testAudioCapture (Except.error e) recorderOracle).2
    ∧ (testAudioCapture (Except.error e) recorderOracle).1.mediaRecorder
        = (match recorderOracle with | .ok b => b | .error _ => false) := by
  cases recorderOracle with
  | ok b => cases b <;> simp [testAudioCapture]
  | error e2 => simp [testAudioCapture]

/-- C10: the webAudio field of the capture verdict is initialized to true
(the source comment reads Assume available) and never written again, so
every probe run, whatever the oracles do, reports web audio available. -/
theorem c10_web_audio_hardcoded (displayMediaOracle : Except String AudioStream)
    (recorderOracle : Except String Bool) :
    (testAudioCapture displayMediaOracle recorderOracle).1.webAudio = true := by
  cases displayMediaOracle with
  | ok stream =>
      cases recorderOracle with
      | ok b =>
          by_cases h : stream.audioTracks > 0 <;> cases b <;> simp [testAudioCapture, h]
      | error e2 =>
          by_cases h : stream.audioTracks > 0 <;> simp [testAudioCapture, h]
  | error e =>
      cases recorderOracle with
      | ok b => cases b <;> simp [testAudioCapture]
      | error e2 => simp [testAudioCapture]

/-- Platform effects of a full-mixing probe run, in order. -/
inductive MixAction where
  | micAcquired : MixAction
  | sysAcquired : MixAction
  | contextCreated : MixAction
  | micStopped : MixAction
  | sysStopped : MixAction
  | contextClosed : MixAction
deriving DecidableEq

/-- testFullAudioMixing from the source, as the trace of platform effects it
performs. The four oracles are the outcomes of getUserMedia, getDisplayMedia,
the AudioContext constructor, and the node-construction and connection steps.
The whole body sits in a single try whose catch only logs, and the stop and
close calls are the last statements of the try block, so they run only when
every prior step succeeded. -/
def testFullAudioMixing (micOracle sysOracle ctxOracle graphOracle : Except String Unit) :
    List MixAction :=
  match micOracle with
  | .error _ => []
  | .ok _ =>
    match sysOracle with
    | .error _ => [MixAction.micAcquired]
    | .ok _ =>
      match ctxOracle with
      | .error _ => [MixAction.micAcquired, MixAction.sysAcquired]
      | .ok _ =>
        match graphOracle with
        | .error _ =>
            [MixAction.micAcquired, MixAction.sysAcquired, MixAction.contextCreated]
        | .ok _ =>
            [MixAction.micAcquired, MixAction.sysAcquired, MixAction.contextCreated,
              MixAction.micStopped, MixAction.sysStopped, MixAction.contextClosed]

/-- C8 as stated is false on the code: when system-audio acquisition throws
after the microphone stream was acquired, the run ends with the microphone
stream never stopped and no audio context ever closed, because the catch
block performs no cleanup. -/
theorem c8_counterexample :
    testFullAudioMixing (Except.ok ()) (Except.error "NotAllowedError")
        (Except.ok ()) (Except.ok ())
      = [MixAction.micAcquired]
    ∧ MixAction.micStopped ∉
        testFullAudioMixing (Except.ok ()) (Except.error "NotAllowedError")
          (Except.ok ()) (Except.ok ())
    ∧ MixAction.contextClosed ∉
        testFullAudioMixing (Except.ok ()) (Except.error "NotAllowedError")
          (Except.ok ()) (Except.ok ()) := by
  refine ⟨rfl, ?_, ?_⟩ <;> decide

/-- C8 amended: the two device streams are released and the audio context is
torn down exactly on the all-success path; as soon as any step throws, no
release happens at all, and streams or context acquired by the earlier steps
are left engaged. -/
theorem c8_cleanup_only_on_success (micOracle sysOracle ctxOracle graphOracle :
    Except String Unit) :
    (MixAction.micStopped ∈ testFullAudioMixing micOracle sysOracle ctxOracle graphOracle
      ∨ MixAction.sysStopped ∈ testFullAudioMixing micOracle sysOracle ctxOracle graphOracle
      ∨ MixAction.contextClosed ∈ testFullAudioMixing micOracle sysOracle ctxOracle graphOracle)
    ↔ (micOracle.isOk ∧ sysOracle.isOk ∧ ctxOracle.isOk ∧ graphOracle.isOk) := by
  cases micOracle <;> cases sysOracle <;> cases ctxOracle <;> cases graphOracle <;>
    simp [testFullAudioMixing, Except.isOk, Except.toBool]

/-- The slice of the Spotify.Player constructor argument the claims mention:
the device name, the token-supplying callback, and the initial volume. -/
structure PlayerConfig where
  name : String
  getOAuthToken : (String → String) → String
  volume : Rat

/-- initializePlayer from the source: bails out on a falsy token, otherwise
constructs the device configuration whose getOAuthToken callback invokes the
consumer with the token captured here, every time it is asked. -/
def initializePlayer (token : String) : Option PlayerConfig :=
  if token = "" then none
  else some
    { name := "Beats & Repeats Test Player"
      getOAuthToken := fun cb => cb token
      volume := 0.5 }

/-- The page-load effect from the source: run handleAuthCallback and, exactly
when it produced a token, initialize the player with that token. -/
def appInit (enc : String → String) (redirectUri : String)
    (code error storage : Option String) (fetch : String → TokenResponse) :
    CallbackResult × Option PlayerConfig :=
  let r := handleAuthCallback enc redirectUri code error storage fetch
  match r.outcome with
  | .success t => (r, initializePlayer t)
  | _ => (r, none)

/-- When handleAuthCallback reports success with a token, that token is
exactly the accessToken state it set, and it is nonempty. -/
theorem handleAuthCallback_success_token (enc : String → String) (redirectUri : String)
    (code error storage : Option String) (fetch : String → TokenResponse) (x : String)
    (h : (handleAuthCallback enc redirectUri code error storage fetch).outcome
        = .success x) :
    (handleAuthCallback enc redirectUri code error storage fetch).accessToken = some x
    ∧ x ≠ "" := by
  simp only [handleAuthCallback] at h ⊢
  split_ifs at h ⊢ with he hcode hst hok htok <;> simp at h
  show (fetch (tokenBody enc redirectUri (code.getD "")
      (storage.getD ""))).access_token = some x ∧ x ≠ ""
  cases hat : (fetch (tokenBody enc redirectUri (code.getD "")
      (storage.getD ""))).access_token with
  | none => rw [hat] at htok; simp [truthy] at htok
  | some y =>
      rw [hat] at h htok
      simp only [Option.getD_some] at h
      subst h
      simp only [truthy, bne_iff_ne, ne_eq] at htok
      exact ⟨rfl, htok⟩

/-- C9: whenever page initialization stands up a player, the getOAuthToken
callback it installed answers every request by handing the consumer the
access token the exchange produced, which equals the accessToken state the
app holds, and no player event ever modifies that state afterwards, so every
request during the lifetime of the device is answered with the latest known
access credential. -/
theorem c9_token_on_demand (enc : String → String) (redirectUri : String)
    (code error storage : Option String) (fetch : String → TokenResponse)
    (cfg : PlayerConfig) (t : String)
    (hc : (appInit enc redirectUri code error storage fetch).2 = some cfg)
    (ht : (appInit enc redirectUri code error storage fetch).1.accessToken = some t) :
    (∀ cb : String → String, cfg.getOAuthToken cb = cb t)
    ∧ (∀ (s : AppState) (st : Option PlayerState),
        (playerStateChanged s st).1.accessToken = s.accessToken) := by
  constructor
  · intro cb
    simp only [appInit] at hc ht
    cases hout : (handleAuthCallback enc redirectUri code error storage fetch).outcome with
    | noPending => rw [hout] at hc; simp at hc
    | authDenied e => rw [hout] at hc; simp at hc
    | missingVerifier => rw [hout] at hc; simp at hc
    | tokenExchangeFailed st d => rw [hout] at hc; simp at hc
    | noAccessToken => rw [hout] at hc; simp at hc
    | success x =>
        rw [hout] at hc ht
        simp only [] at hc ht
        obtain ⟨hat, hx⟩ := handleAuthCallback_success_token enc redirectUri code error
          storage fetch x hout
        rw [hat] at ht
        obtain rfl : x = t := by injection ht
        simp only [initializePlayer, if_neg hx, Option.some.injEq] at hc
        rw [← hc]
  · intro s st
    cases st with
    | none => rfl
    | some stv =>
        cases htr : stv.track_window.current_track with
        | none => simp [playerStateChanged, htr]
        | some tr =>
            cases ha : tr.artists.head? with
            | none => simp [playerStateChanged, htr, ha]
            | some a => simp [playerStateChanged, htr, ha]

/-- The player configuration that the concrete appInit run below produces. -/
def demoCfg : PlayerConfig :=
  { name := "Beats & Repeats Test Player", getOAuthToken := fun cb => cb "tok", volume := 0.5 }

/-- Concrete instantiation of c9_token_on_demand. -/
theorem c9_token_on_demand_witness :
    ((appInit (fun s => s) "https://app.test/" (some "abc") none (some "ver")
        demoFetchOk).2 = some demoCfg
      ∧ (appInit (fun s => s) "https://app.test/" (some "abc") none (some "ver")
        demoFetchOk).1.accessToken = some "tok")
    ∧ ((∀ cb : String → String, demoCfg.getOAuthToken cb = cb "tok")
      ∧ (∀ (s : AppState) (st : Option PlayerState),
          (playerStateChanged s st).1.accessToken = s.accessToken)) :=
  ⟨⟨rfl, rfl⟩,
    c9_token_on_demand (fun s => s) "https://app.test/" (some "abc") none (some "ver")
      demoFetchOk demoCfg "tok" rfl rfl⟩

end BeatsRepeats
